import Mathlib

/-
  Verification of the reminder-scheduling and appointment-conflict core of
  the API_med repository (src/src/utils/scheduler.js, src/src/utils/email.js,
  src/src/models/Appointment.js, src/src/models/MedicationHistory.js).

  Times of day are "HH:MM" strings in the source; they are parsed with
  split(':') and Number(), then compared as minutes-since-midnight.
  Timestamps (Date values) are modelled at minute granularity as integers,
  and calendar days as integer day indices (a timestamp on day d lies in
  [d*1440, (d+1)*1440)).
-/

/-- Splitting on a separator character, with JavaScript's convention:
splitting the empty list yields one empty component, and a trailing
separator yields a trailing empty component. -/
def splitChars (sep : Char) : List Char → List (List Char)
  | [] => [[]]
  | c :: cs =>
    match splitChars sep cs with
    | [] => [[c]]
    | g :: gs => if c = sep then [] :: g :: gs else (c :: g) :: gs

/-- JavaScript's `Number(component)` on a component of a time string: the value of a
nonempty all-digit component, `none` (modelling NaN) otherwise. Every time
string in the system is regex-validated to `HH:MM` with digit components
(Appointment.js line 29, MedicationHistory.js line 23, Medication model),
so the further leniencies of JavaScript's `Number` are unreachable. -/
def digitsToNat? (cs : List Char) : Option Nat :=
  match cs with
  | [] => none
  | _ =>
    cs.foldl
      (fun acc c =>
        match acc with
        | some a => if 48 ≤ c.toNat ∧ c.toNat ≤ 57 then some (a * 10 + (c.toNat - 48)) else none
        | none => none)
      (some 0)

/-- Destructuring `const [schedHour, schedMin] = scheduledTime.split(':').map(Number)`:
the first two components of the colon-split string, as numbers; `none`
models a NaN in either position (a NaN makes every later comparison in the
source evaluate to false). Components after the second are ignored, as by
the source's destructuring. -/
def parseHM (s : String) : Option (Nat × Nat) :=
  match splitChars (':') s.data with
  | c0 :: c1 :: _ =>
    match digitsToNat? c0, digitsToNat? c1 with
    | some h, some m => some (h, m)
    | _, _ => none
  | _ => none

/-- Minutes since midnight of an "HH:MM" string, `h * 60 + m` as in
scheduler.js lines 52-53; `none` models the NaN produced for a malformed
string (every NaN comparison in the source evaluates to false). -/
def toMinutes (s : String) : Option Nat :=
  (parseHM s).map fun p => p.1 * 60 + p.2

/-- Time-Window Matcher: `Math.abs(schedMinutes - currMinutes) <= tol`
(scheduler.js line 55, with the tolerance a parameter as in
`wasOnTime(toleranceMinutes)` of MedicationHistory.js lines 207-219;
the reminder path instantiates it with the literal 2). -/
def matchesWindow (scheduledTime currentTime : String) (toleranceMinutes : Nat) : Bool :=
  match toMinutes scheduledTime, toMinutes currentTime with
  | some schedMinutes, some currMinutes =>
      decide (((schedMinutes : Int) - (currMinutes : Int)).natAbs ≤ toleranceMinutes)
  | _, _ => false

/-- The check `medication.timesPerDay.some(...)` of scheduler.js lines 47-56: some
scheduled time is within 2 minutes of the current time. -/
def shouldRemind (timesPerDay : List String) (currentTime : String) : Bool :=
  timesPerDay.any fun scheduledTime =>
    match toMinutes scheduledTime, toMinutes currentTime with
    | some schedMinutes, some currMinutes =>
        decide (((schedMinutes : Int) - (currMinutes : Int)).natAbs ≤ 2)
    | _, _ => false

/-- The filter `medication.timesPerDay.filter(...)` of scheduler.js lines 79-87: the
scheduled times that are exactly 30 minutes before the current time. -/
def missedTimes (timesPerDay : List String) (currentTime : String) : List String :=
  timesPerDay.filter fun scheduledTime =>
    match toMinutes scheduledTime, toMinutes currentTime with
    | some schedMinutes, some currMinutes =>
        decide ((currMinutes : Int) - (schedMinutes : Int) = 30)
    | _, _ => false

/-- A medication as the reminder pass sees it: the populated patient's
`telegramId` (absent = not connected), the `timesPerDay` strings, and the
`lastReminded` dedup marker. `moment(lastReminded).isSame(today, 'day')`
compares calendar days only, and the marker is only ever written as "now",
so the marker is modelled as the calendar-day index of the last reminder
(`none` = never reminded). -/
structure Med where
  id : Nat
  telegramId : Option Nat
  timesPerDay : List String
  lastReminded : Option Nat
  deriving DecidableEq, Repr

/-- Result of the reminder-pass loop body (scheduler.js lines 42-115) for
one medication: the medication's state afterwards, how many reminders were
dispatched for it (0 or 1), and whether the body threw. -/
structure ProcResult where
  med : Med
  sent : Nat
  threw : Bool
  deriving DecidableEq, Repr

/-- One medication's processing inside the reminder cron callback
(scheduler.js lines 42-115), on calendar day `today` at wall-clock time
`currentTime`, with `dispatchOk` the outcome of
`sendMedicationReminder` (bot.js lines 20-35: returns a boolean, never
throws). Steps, as in the source:
* line 44: skip entirely when the patient has no `telegramId`;
* lines 47-76: if some scheduled time is within 2 minutes of now and
  `lastReminded` is absent or not on today's calendar day, dispatch; only
  on a `true` result set `lastReminded` to now and count the reminder;
* lines 79-114: compute the times exactly 30 minutes overdue; the loop
  body at lines 91-113 reads the variable `today`, but the only `today`
  declaration (line 60, `const today = new Date()`) is block-scoped inside
  the `if (shouldRemind)` block that ends at line 76, so the first loop
  iteration throws a ReferenceError before its `findOne` query is built.
  Hence the body throws exactly when `missedTimes` is nonempty, and the
  dedup query and `MedicationHistory.create` at lines 91-109 are
  unreachable: no missed DoseRecord is ever created. -/
def processMedication (today : Nat) (currentTime : String) (dispatchOk : Bool)
    (med : Med) : ProcResult :=
  if med.telegramId.isNone then ⟨med, 0, false⟩
  else
    let afterReminder :=
      if shouldRemind med.timesPerDay currentTime then
        if med.lastReminded ≠ some today then
          if dispatchOk then ({ med with lastReminded := some today }, 1)
          else (med, 0)
        else (med, 0)
      else (med, 0)
    ⟨afterReminder.1, afterReminder.2, !(missedTimes med.timesPerDay currentTime).isEmpty⟩

/-- Result of one whole reminder pass: the medication list afterwards, the
`remindersSent` counter, and whether the pass was aborted by a thrown
error (caught by the catch at scheduler.js lines 125-127, which wraps the
entire loop — there is no per-medication catch). -/
structure PassResult where
  meds : List Med
  remindersSent : Nat
  aborted : Bool
  deriving DecidableEq, Repr

/-- One reminder pass (the cron callback of scheduler.js lines 28-128)
over the list of active medications: medications are processed in order;
a throw while processing one medication is caught by the single
try/catch around the whole loop, so the remaining medications are left
unprocessed (their state unchanged, no dispatch attempted). `dispatchOk`
gives each medication's dispatch outcome by id. -/
def reminderPass (today : Nat) (currentTime : String) (dispatchOk : Nat → Bool) :
    List Med → PassResult
  | [] => ⟨[], 0, false⟩
  | med :: rest =>
    let r := processMedication today currentTime (dispatchOk med.id) med
    if r.threw then ⟨r.med :: rest, r.sent, true⟩
    else
      let pr := reminderPass today currentTime dispatchOk rest
      ⟨r.med :: pr.meds, r.sent + pr.remindersSent, pr.aborted⟩

/-- A sequence of reminder ticks within the same calendar day acting on a
single medication: each element of `ticks` is the wall-clock time of one
5-minute cron firing together with the dispatcher's outcome at that tick.
Returns the medication's final state and the total number of reminders
dispatched for it across the whole day. -/
def runTicks (today : Nat) : List (String × Bool) → Med → Med × Nat
  | [], med => (med, 0)
  | tick :: rest, med =>
    let r := processMedication today tick.1 tick.2 med
    let next := runTicks today rest r.med
    (next.1, r.sent + next.2)

/-- Appointment statuses (Appointment.js lines 57-61). -/
inductive ApptStatus
  | scheduled
  | confirmed
  | completed
  | cancelled
  | rescheduled
  | noShow
  deriving DecidableEq, Repr

/-- An appointment. The stored `date` field is modelled as a calendar-day
index `day` plus the time-of-day component `dateMinute` (in minutes,
`0` = midnight, `dateMinute < 1440`), so the stored timestamp in minutes
is `day * 1440 + dateMinute`; `time` is the "HH:MM" start-time string and
`duration` is in minutes (Appointment.js lines 14-39). -/
structure Appt where
  id : Nat
  doctorId : Nat
  day : Int
  dateMinute : Nat
  time : String
  duration : Nat
  status : ApptStatus
  deriving DecidableEq, Repr

/-- The static method `Appointment.hasConflict(doctorId, date, time, duration, excludeId)`
(Appointment.js lines 215-249) over the collection `appts`: the candidate
date is already normalised to its calendar day `day` (lines 216-219 set
hours to 0 and compute the next day); existing appointments are filtered
to the same doctor, a stored date inside `[midnight(day), midnight(day+1))`,
status `scheduled` or `confirmed`, and — when `excludeId` is given — a
different id; the candidate's `[startMinutes, startMinutes + duration)`
then conflicts with an existing `[existingStart, existingStart +
existing.duration)` iff `startMinutes < existingEnd && endMinutes >
existingStart` (line 243). A malformed time behaves as NaN: every
comparison involving it is false. -/
def hasConflict (appts : List Appt) (doctorId : Nat) (day : Int) (time : String)
    (duration : Nat) (excludeId : Option Nat) : Bool :=
  match toMinutes time with
  | none => false
  | some startMinutes =>
    let endMinutes := startMinutes + duration
    let existing := appts.filter fun a =>
      a.doctorId == doctorId
        && decide (day * 1440 ≤ a.day * 1440 + (a.dateMinute : Int))
        && decide (a.day * 1440 + (a.dateMinute : Int) < (day + 1) * 1440)
        && (a.status == ApptStatus.scheduled || a.status == ApptStatus.confirmed)
        && (match excludeId with
            | some e => a.id != e
            | none => true)
    existing.any fun a =>
      match toMinutes a.time with
      | some existingStart =>
          decide (startMinutes < existingStart + a.duration)
            && decide (endMinutes > existingStart)
      | none => false

/-- The hourly no-show sweep (scheduler.js lines 170-203) applied to one
appointment at current time `now` (minutes): the query at lines 176-179
selects status `scheduled` or `confirmed` with stored date earlier than
`twoHoursAgo = now - 120`; lines 184-188 then rebuild the start instant
from the stored date and the "HH:MM" `time` field (at minute granularity)
and mark the appointment `no-show` only when that start instant is also
earlier than `twoHoursAgo`. Note the appointment's duration is never
consulted. -/
def sweepAppt (now : Int) (a : Appt) : Appt :=
  if ((a.status == ApptStatus.scheduled || a.status == ApptStatus.confirmed)
        && decide (a.day * 1440 + (a.dateMinute : Int) < now - 120)) then
    match toMinutes a.time with
    | some startMin =>
        if a.day * 1440 + (startMin : Int) < now - 120 then
          { a with status := ApptStatus.noShow }
        else a
    | none => a
  else a

/-- The no-show sweep over the whole collection. -/
def noShowSweep (now : Int) (appts : List Appt) : List Appt :=
  appts.map (sweepAppt now)

/-- Dose-record statuses (MedicationHistory.js lines 28-33). -/
inductive DoseStatus
  | taken
  | missed
  | skipped
  | delayed
  deriving DecidableEq, Repr

/-- A MedicationHistory document, as far as the adherence calculator reads
it: owning patient and medication, the `takenAt` timestamp (minutes), and
the status. -/
structure DoseRecord where
  medicationId : Nat
  patientId : Nat
  takenAt : Int
  status : DoseStatus
  deriving DecidableEq, Repr

/-- The result object of `getAdherenceRate` (MedicationHistory.js lines
130-149). The rate is a rational: the source computes
`(result.taken / result.total) * 100` in floating point, exact here for
the small integer counts involved. -/
structure AdherenceStats where
  adherenceRate : ℚ
  totalDoses : Nat
  takenDoses : Nat
  missedDoses : Nat
  skippedDoses : Nat
  delayedDoses : Nat
  deriving DecidableEq, Repr

/-- The `$match` stage of the adherence aggregate (MedicationHistory.js
lines 91-101): the patient's records from `dateFrom` on, restricted to one
medication when `medicationId` is given. -/
def adherenceMatch (patientId : Nat) (medicationId : Option Nat) (dateFrom : Int)
    (r : DoseRecord) : Bool :=
  r.patientId == patientId
    && decide (dateFrom ≤ r.takenAt)
    && (match medicationId with
        | some m => r.medicationId == m
        | none => true)

/-- The static method `MedicationHistory.getAdherenceRate(patientId, medicationId, days)`
(MedicationHistory.js lines 87-150) over the collection `records` at
current time `now` (minutes): `dateFrom` is `days` days before now; the
match keeps the patient's records with `takenAt >= dateFrom` and, when
`medicationId` is given, that medication's; the aggregate counts the
group's size and the per-status counts; an empty group returns all
zeroes, otherwise `adherenceRate = taken / total * 100` guarded by
`total > 0`. The `$match` stage's predicate is split out as
`adherenceMatch`. -/
def getAdherenceRate (records : List DoseRecord) (patientId : Nat)
    (medicationId : Option Nat) (days : Nat) (now : Int) : AdherenceStats :=
  let dateFrom : Int := now - days * 1440
  let matched := records.filter (adherenceMatch patientId medicationId dateFrom)
  if matched.isEmpty then ⟨0, 0, 0, 0, 0, 0⟩
  else
    let total := matched.length
    let taken := (matched.filter fun r => r.status == DoseStatus.taken).length
    let missed := (matched.filter fun r => r.status == DoseStatus.missed).length
    let skipped := (matched.filter fun r => r.status == DoseStatus.skipped).length
    let delayed := (matched.filter fun r => r.status == DoseStatus.delayed).length
    ⟨if 0 < total then (taken : ℚ) / (total : ℚ) * 100 else 0,
      total, taken, missed, skipped, delayed⟩

/-- The function `scheduleMedicationReminders(medication, user)` of email.js lines
466-526, restricted to its trigger-creation loop (lines 486-522): `create`
models `cron.schedule` for one "HH:MM" time — `some handle` on success,
`none` when it throws (e.g. a malformed time yields an invalid cron
expression). The loop body has no try/catch, so the first failing time
aborts the loop: the handles created so far exist but no further time is
attempted (and the registry entry at line 525 is never stored). Returns
the created handles and whether the loop threw. -/
def scheduleMedicationReminders (create : String → Option Nat) :
    List String → List Nat × Bool
  | [] => ([], false)
  | time :: rest =>
    match create time with
    | none => ([], true)
    | some job =>
      let r := scheduleMedicationReminders create rest
      (job :: r.1, r.2)

/-- The 08:00/20:00 example medication of the spec (patient connected,
never yet reminded). -/
def medEx : Med := ⟨1, some 10, ["08:00", "20:00"], none⟩

/-- The existing confirmed appointment 10:00-10:30 of doctor 7 on day 0,
with the stored date at midnight. -/
def apptEx : Appt := ⟨1, 7, 0, 0, "10:00", 30, ApptStatus.confirmed⟩

/-- A medication whose 08:00 dose is exactly 30 minutes overdue at 08:30,
making the missed-dose block throw. -/
def medThrow : Med := ⟨1, some 11, ["08:00"], none⟩

/-- A medication scheduled at 08:30 and not yet reminded: processed alone
at 08:30 it would be dispatched a reminder. -/
def medAfter : Med := ⟨2, some 12, ["08:30"], none⟩

/-- The overdue appointment of the C5 analysis: scheduled, 10:00 for 30
minutes on day 0, stored date at midnight. -/
def apptC5 : Appt := ⟨2, 7, 0, 0, "10:00", 30, ApptStatus.scheduled⟩

/-- A trigger-creation oracle that throws exactly on the time 08:00. -/
def exCreate : String → Option Nat := fun t => if t == "08:00" then none else some 1

section Lemmas

/-- Branch-level characterisation of the loop body: skip without telegram;
update the marker and count 1 exactly when the window matches, the marker
is not today's, and dispatch succeeds; and the body throws iff some time
is exactly 30 minutes overdue. -/
theorem processMedication_eq (today : Nat) (ct : String) (ok : Bool) (med : Med) :
    processMedication today ct ok med =
      if med.telegramId.isNone then ⟨med, 0, false⟩
      else if shouldRemind med.timesPerDay ct = true ∧ med.lastReminded ≠ some today ∧ ok = true then
        ⟨{ med with lastReminded := some today }, 1,
          !(missedTimes med.timesPerDay ct).isEmpty⟩
      else ⟨med, 0, !(missedTimes med.timesPerDay ct).isEmpty⟩ := by
  unfold processMedication
  by_cases h1 : med.telegramId.isNone
  · simp [h1]
  · simp only [h1, if_false]
    by_cases h2 : shouldRemind med.timesPerDay ct = true
    · by_cases h3 : med.lastReminded ≠ some today
      · by_cases h4 : ok = true <;> simp [h2, h3, h4]
      · simp [h2, h3]
    · simp [h2]

theorem processMedication_sent_pos (today : Nat) (ct : String) (ok : Bool) (med : Med)
    (h : 0 < (processMedication today ct ok med).sent) :
    med.lastReminded ≠ some today
      ∧ (processMedication today ct ok med).med.lastReminded = some today
      ∧ (processMedication today ct ok med).sent = 1 := by
  rw [processMedication_eq] at *
  by_cases h1 : med.telegramId.isNone
  · simp [h1] at h
  · simp only [h1, if_false] at *
    by_cases h2 : shouldRemind med.timesPerDay ct = true
        ∧ med.lastReminded ≠ some today ∧ ok = true
    · simp [h2]
    · simp [h2] at h

theorem processMedication_sent_zero (today : Nat) (ct : String) (ok : Bool) (med : Med)
    (h : (processMedication today ct ok med).sent = 0) :
    (processMedication today ct ok med).med = med := by
  rw [processMedication_eq] at *
  by_cases h1 : med.telegramId.isNone
  · simp [h1]
  · simp only [h1, if_false] at *
    by_cases h2 : shouldRemind med.timesPerDay ct = true
        ∧ med.lastReminded ≠ some today ∧ ok = true
    · simp [h2] at h
    · simp [h2]

theorem processMedication_marker_today (today : Nat) (ct : String) (ok : Bool) (med : Med)
    (h : med.lastReminded = some today) :
    (processMedication today ct ok med).med = med
      ∧ (processMedication today ct ok med).sent = 0 := by
  rw [processMedication_eq]
  by_cases h1 : med.telegramId.isNone
  · simp [h1]
  · simp [h1, h]

theorem runTicks_marker_today (today : Nat) (ticks : List (String × Bool)) (med : Med)
    (h : med.lastReminded = some today) :
    runTicks today ticks med = (med, 0) := by
  induction ticks with
  | nil => rfl
  | cons tick rest ih =>
    unfold runTicks
    dsimp only
    have hm := processMedication_marker_today today tick.1 tick.2 med h
    rw [hm.1, hm.2, ih]
    simp

theorem runTicks_sent_le_one (today : Nat) (ticks : List (String × Bool)) (med : Med) :
    (runTicks today ticks med).2 ≤ 1 := by
  induction ticks generalizing med with
  | nil => simp [runTicks]
  | cons tick rest ih =>
    unfold runTicks
    dsimp only
    by_cases h : 0 < (processMedication today tick.1 tick.2 med).sent
    · have hp := processMedication_sent_pos today tick.1 tick.2 med h
      rw [runTicks_marker_today today rest _ hp.2.1, hp.2.2]
      simp
    · have h0 : (processMedication today tick.1 tick.2 med).sent = 0 := by omega
      rw [h0]
      simpa using ih ((processMedication today tick.1 tick.2 med).med)

end Lemmas

/-- C3: for well-formed times, the Time-Window Matcher returns true iff
the absolute difference of the two times in minutes-since-midnight is at
most the tolerance; a difference of exactly the tolerance is included and
of tolerance+1 excluded; and the reminder path's check is exactly this
matcher at tolerance 2 over the medication's scheduled times. -/
theorem matchesWindow_iff_abs_le (t now : String) (tol sched curr : Nat)
    (ts : List String)
    (ht : toMinutes t = some sched) (hn : toMinutes now = some curr) :
    (matchesWindow t now tol = true ↔ ((sched : Int) - (curr : Int)).natAbs ≤ tol)
    ∧ (((sched : Int) - (curr : Int)).natAbs = tol → matchesWindow t now tol = true)
    ∧ (((sched : Int) - (curr : Int)).natAbs = tol + 1 → matchesWindow t now tol = false)
    ∧ shouldRemind ts now = ts.any fun s => matchesWindow s now 2 := by
  have hm : ∀ tol2 : Nat, matchesWindow t now tol2 =
      decide (((sched : Int) - (curr : Int)).natAbs ≤ tol2) := by
    intro tol2
    unfold matchesWindow
    rw [ht, hn]
  refine ⟨?_, ?_, ?_, rfl⟩
  · rw [hm]
    simp only [decide_eq_true_eq]
  · intro h
    rw [hm]
    simp only [decide_eq_true_eq]
    omega
  · intro h
    rw [hm]
    simp only [decide_eq_false_iff_not]
    omega

/-- C3 witness at scheduled 08:00, now 08:02, tolerance 2. -/
theorem matchesWindow_iff_abs_le_witness :
    matchesWindow ("08:00") ("08:02") 2 = true :=
  ((matchesWindow_iff_abs_le ("08:00") ("08:02") 2 480 482 []
    (by decide) (by decide)).1).mpr (by decide)

/-- C10: the matcher compares plain absolute differences with no
wrap-around at midnight: 23:59 against 00:00 yields a difference of 1439
minutes, not 1, so the matcher rejects; consequently 23:58 and 23:59
match no tick of the 5-minute-aligned grid under tolerance 2. -/
theorem matchesWindow_no_midnight_wrap :
    (toMinutes ("23:59") = some 1439 ∧ toMinutes ("00:00") = some 0
      ∧ ((1439 : Int) - (0 : Int)).natAbs = 1439
      ∧ matchesWindow ("23:59") ("00:00") 2 = false)
    ∧ ∀ tick : Nat, tick % 5 = 0 → tick < 1440 →
        ∀ curr : String, toMinutes curr = some tick →
          matchesWindow ("23:58") curr 2 = false
          ∧ matchesWindow ("23:59") curr 2 = false := by
  refine ⟨by decide, ?_⟩
  intro tick h5 hlt curr hc
  have h58 : toMinutes ("23:58") = some 1438 := by decide
  have h59 : toMinutes ("23:59") = some 1439 := by decide
  constructor
  · unfold matchesWindow
    rw [h58, hc]
    simp only [decide_eq_false_iff_not]
    omega
  · unfold matchesWindow
    rw [h59, hc]
    simp only [decide_eq_false_iff_not]
    omega

/-- C10 witness at the 23:55 grid tick. -/
theorem matchesWindow_no_midnight_wrap_witness :
    matchesWindow ("23:58") ("23:55") 2 = false
    ∧ matchesWindow ("23:59") ("23:55") 2 = false :=
  matchesWindow_no_midnight_wrap.2 1435 (by decide) (by decide) ("23:55") (by decide)

/-- C1: a reminder is dispatched only if the `lastReminded` marker is not
on the current calendar day; on successful dispatch the marker is set to
now; hence over any sequence of same-day ticks at most one reminder is
dispatched per medication; in particular the 08:00/20:00 medication gets
the 08:00 reminder, is marked handled, and the 20:00 tick dispatches
nothing the same day. -/
theorem reminder_at_most_once_per_day (med : Med) (today : Nat)
    (ticks : List (String × Bool)) (ct : String) (ok : Bool) :
    (0 < (processMedication today ct ok med).sent →
        med.lastReminded ≠ some today
          ∧ (processMedication today ct ok med).med.lastReminded = some today)
    ∧ (runTicks today ticks med).2 ≤ 1
    ∧ runTicks 0 [(("08:00"), true), (("20:00"), true)] medEx =
        ({ medEx with lastReminded := some 0 }, 1)
    ∧ (processMedication 0 ("08:00") true medEx).sent = 1
    ∧ (processMedication 0 ("20:00") true { medEx with lastReminded := some 0 }).sent = 0 := by
  refine ⟨fun h => ⟨(processMedication_sent_pos today ct ok med h).1,
      (processMedication_sent_pos today ct ok med h).2.1⟩,
    runTicks_sent_le_one today ticks med, by decide, by decide, by decide⟩

/-- C1 witness: the 08:00 tick's dispatch for the example medication
presupposes and then sets the day marker. -/
theorem reminder_at_most_once_per_day_witness :
    medEx.lastReminded ≠ some 0
    ∧ (processMedication 0 ("08:00") true medEx).med.lastReminded = some 0 :=
  (reminder_at_most_once_per_day medEx 0 [] ("08:00") true).1 (by decide)

/-- C8: when the dispatcher returns false the medication is left entirely
unchanged (marker kept, nothing counted), so a later same-day tick whose
dispatch succeeds still sends the reminder. -/
theorem dispatch_failure_no_state_change (med : Med) (today : Nat) (ct : String) :
    (processMedication today ct false med).med = med
    ∧ (processMedication today ct false med).sent = 0
    ∧ runTicks 0 [(("08:00"), false), (("08:01"), true)] medEx =
        ({ medEx with lastReminded := some 0 }, 1)
    ∧ (processMedication 0 ("08:00") false medEx).med = medEx := by
  refine ⟨?_, ?_, by decide, by decide⟩
  · rw [processMedication_eq]
    by_cases h1 : med.telegramId.isNone <;> simp [h1]
  · rw [processMedication_eq]
    by_cases h1 : med.telegramId.isNone <;> simp [h1]

/-- C4 counterexample: at the 08:30 tick the first medication's missed-dose
block throws, the whole pass is aborted by the single pass-level catch,
and the second medication — which processed alone would have been
dispatched a reminder — is left unprocessed. -/
theorem pass_abort_counterexample :
    reminderPass 0 ("08:30") (fun _ => true) [medThrow, medAfter] =
      ⟨[medThrow, medAfter], 0, true⟩
    ∧ (processMedication 0 ("08:30") true medAfter).sent = 1 := by decide

/-- C4 amended: a throw while processing one medication is caught by the
single try/catch around the whole pass (the cron callback never
propagates it), but it aborts the pass: every remaining medication is
returned unprocessed and undispatched. -/
theorem pass_catch_aborts_rest (today : Nat) (ct : String) (dispatchOk : Nat → Bool)
    (med : Med) (rest : List Med)
    (h : (processMedication today ct (dispatchOk med.id) med).threw = true) :
    reminderPass today ct dispatchOk (med :: rest) =
      ⟨(processMedication today ct (dispatchOk med.id) med).med :: rest,
        (processMedication today ct (dispatchOk med.id) med).sent, true⟩ := by
  unfold reminderPass
  dsimp only
  rw [h]
  simp

/-- C4 witness: the aborting pass over the two-medication example. -/
theorem pass_catch_aborts_rest_witness :
    reminderPass 0 ("08:30") (fun _ => true) [medThrow, medAfter] =
      ⟨(processMedication 0 ("08:30") true medThrow).med :: [medAfter],
        (processMedication 0 ("08:30") true medThrow).sent, true⟩ :=
  pass_catch_aborts_rest 0 ("08:30") (fun _ => true) medThrow [medAfter] (by decide)

/-- C6 (code bug): whenever a connected medication has a scheduled time
exactly 30 minutes overdue, the missed-dose block reads the out-of-scope
`today` binding and throws before its dedup query or `create` call can
run, aborting the pass; evaluated at the failing input (time 08:00,
tick 08:30) the loop body throws. No missed DoseRecord is ever created by
this code path. -/
theorem missed_dose_block_throws (today : Nat) (ct : String) (ok : Bool) (med : Med)
    (rest : List Med) (dispatchOk : Nat → Bool)
    (htel : med.telegramId.isNone = false)
    (hmiss : (missedTimes med.timesPerDay ct).isEmpty = false) :
    (processMedication today ct ok med).threw = true
    ∧ (reminderPass today ct dispatchOk (med :: rest)).aborted = true
    ∧ (processMedication 0 ("08:30") true medThrow).threw = true := by
  have hthrew : ∀ ok2 : Bool, (processMedication today ct ok2 med).threw = true := by
    intro ok2
    rw [processMedication_eq]
    by_cases h2 : shouldRemind med.timesPerDay ct = true
        ∧ med.lastReminded ≠ some today ∧ ok2 = true
    · simp [htel, h2, hmiss]
    · simp [htel, h2, hmiss]
  refine ⟨hthrew ok, ?_, by decide⟩
  unfold reminderPass
  dsimp only
  rw [hthrew (dispatchOk med.id)]
  simp

/-- C6 witness: the failing input evaluated through the pass. -/
theorem missed_dose_block_throws_witness :
    (processMedication 0 ("08:30") true medThrow).threw = true
    ∧ (reminderPass 0 ("08:30") (fun _ => true) [medThrow]).aborted = true :=
  ⟨(missed_dose_block_throws 0 ("08:30") true medThrow [] (fun _ => true)
      (by decide) (by decide)).1,
    (missed_dose_block_throws 0 ("08:30") true medThrow [] (fun _ => true)
      (by decide) (by decide)).2.1⟩

/-- C2: `hasConflict` returns true iff some stored appointment of the same
doctor on the same calendar day, with status scheduled or confirmed and an
identity different from the excluded one, has a half-open minute interval
overlapping the candidate's (`startA < endB ∧ endA > startB`); on the
concrete scenario, against the existing confirmed 10:00-10:30 the
candidate 10:30-11:00 is accepted while 10:15-10:45 and 09:45-10:05 are
rejected. -/
theorem hasConflict_iff_overlap (appts : List Appt) (doctorId : Nat) (day : Int)
    (time : String) (duration : Nat) (excludeId : Option Nat) (startMinutes : Nat)
    (ht : toMinutes time = some startMinutes)
    (hdm : ∀ a ∈ appts, a.dateMinute < 1440) :
    (hasConflict appts doctorId day time duration excludeId = true ↔
      ∃ a ∈ appts, a.doctorId = doctorId ∧ a.day = day
        ∧ (a.status = ApptStatus.scheduled ∨ a.status = ApptStatus.confirmed)
        ∧ (∀ e, excludeId = some e → a.id ≠ e)
        ∧ ∃ existingStart, toMinutes a.time = some existingStart
            ∧ startMinutes < existingStart + a.duration
            ∧ startMinutes + duration > existingStart)
    ∧ hasConflict [apptEx] 7 0 ("10:30") 30 none = false
    ∧ hasConflict [apptEx] 7 0 ("10:15") 30 none = true
    ∧ hasConflict [apptEx] 7 0 ("09:45") 20 none = true := by
  refine ⟨?_, by decide, by decide, by decide⟩
  unfold hasConflict
  rw [ht]
  dsimp only
  simp only [List.any_eq_true, List.mem_filter]
  constructor
  · rintro ⟨a, ⟨haMem, hfil⟩, hover⟩
    simp only [Bool.and_eq_true, beq_iff_eq, Bool.or_eq_true, decide_eq_true_eq] at hfil
    obtain ⟨⟨⟨⟨hdoc, hge⟩, hlt⟩, hstat⟩, hexc⟩ := hfil
    refine ⟨a, haMem, hdoc, ?_, ?_, ?_, ?_⟩
    · have := hdm a haMem
      omega
    · rcases hstat with h | h
      · exact Or.inl (by simpa using h)
      · exact Or.inr (by simpa using h)
    · intro e he
      cases excludeId with
      | none => cases he
      | some e2 =>
        cases he
        simpa using hexc
    · cases hta : toMinutes a.time with
      | none => rw [hta] at hover; cases hover
      | some es =>
        rw [hta] at hover
        simp only [Bool.and_eq_true, decide_eq_true_eq] at hover
        exact ⟨es, rfl, hover.1, hover.2⟩
  · rintro ⟨a, haMem, hdoc, hday, hstat, hexc, es, hes, h1, h2⟩
    refine ⟨a, ⟨haMem, ?_⟩, ?_⟩
    · simp only [Bool.and_eq_true, beq_iff_eq, Bool.or_eq_true, decide_eq_true_eq]
      have := hdm a haMem
      refine ⟨⟨⟨⟨hdoc, by omega⟩, by omega⟩, ?_⟩, ?_⟩
      · rcases hstat with h | h
        · exact Or.inl (by simp [h])
        · exact Or.inr (by simp [h])
      · cases excludeId with
        | none => rfl
        | some e2 => simpa using hexc e2 rfl
    · rw [hes]
      simp only [Bool.and_eq_true, decide_eq_true_eq]
      exact ⟨h1, h2⟩

/-- C2 witness: the rejected 10:15-10:45 candidate, decided through the
characterisation. -/
theorem hasConflict_iff_overlap_witness :
    hasConflict [apptEx] 7 0 ("10:15") 30 none = true :=
  (hasConflict_iff_overlap [apptEx] 7 0 ("10:15") 30 none 615
    (by decide) (by decide)).2.2.1

/-- C5 counterexample: at 12:01 on day 0 the sweep marks the scheduled
10:00-10:30 appointment as no-show although its end time 10:30 is only 91
minutes in the past — the sweep compares the start instant, never adding
the duration, so the claim's "end time more than 2 hours in the past" is
not what the code tests. -/
theorem noShow_sweep_counterexample :
    (sweepAppt 721 apptC5).status = ApptStatus.noShow
    ∧ toMinutes apptC5.time = some 600
    ∧ apptC5.duration = 30
    ∧ ¬((600 : Int) + 30 < 721 - 120) := by decide

/-- C5 amended: when the stored date's time component is at or before the
start time (e.g. midnight), the sweep marks an appointment no-show exactly
when its status is scheduled or confirmed and its start instant is more
than 2 hours in the past; and the sweep never changes an appointment whose
status is completed, cancelled, or no-show. -/
theorem sweep_marks_iff_start_overdue (now : Int) (a : Appt) (startMin : Nat)
    (ht : toMinutes a.time = some startMin) (hmid : (a.dateMinute : Int) ≤ startMin) :
    ((sweepAppt now a).status = ApptStatus.noShow ↔
      (a.status = ApptStatus.noShow
        ∨ ((a.status = ApptStatus.scheduled ∨ a.status = ApptStatus.confirmed)
            ∧ a.day * 1440 + (startMin : Int) < now - 120)))
    ∧ ((a.status = ApptStatus.completed ∨ a.status = ApptStatus.cancelled
          ∨ a.status = ApptStatus.noShow) → sweepAppt now a = a) := by
  obtain ⟨i, doc, dy, dm, tm, du, st⟩ := a
  simp only at ht hmid ⊢
  cases st
  case scheduled =>
    refine ⟨?_, by rintro (h | h | h) <;> cases h⟩
    by_cases hpre : dy * 1440 + (dm : Int) < now - 120
    · by_cases hs : dy * 1440 + (startMin : Int) < now - 120
      · simp [sweepAppt, ht, hpre, hs]
      · simp [sweepAppt, ht, hpre, hs]
    · have hs : ¬ dy * 1440 + (startMin : Int) < now - 120 := by omega
      simp [sweepAppt, ht, hpre, hs]
  case confirmed =>
    refine ⟨?_, by rintro (h | h | h) <;> cases h⟩
    by_cases hpre : dy * 1440 + (dm : Int) < now - 120
    · by_cases hs : dy * 1440 + (startMin : Int) < now - 120
      · simp [sweepAppt, ht, hpre, hs]
      · simp [sweepAppt, ht, hpre, hs]
    · have hs : ¬ dy * 1440 + (startMin : Int) < now - 120 := by omega
      simp [sweepAppt, ht, hpre, hs]
  case completed => simp [sweepAppt]
  case cancelled => simp [sweepAppt]
  case rescheduled => simp [sweepAppt]
  case noShow => simp [sweepAppt]

/-- C5 witness: the overdue scheduled appointment is marked no-show by the
amended characterisation. -/
theorem sweep_marks_iff_start_overdue_witness :
    (sweepAppt 721 apptC5).status = ApptStatus.noShow :=
  ((sweep_marks_iff_start_overdue 721 apptC5 600 (by decide) (by decide)).1).mpr
    (Or.inr ⟨Or.inl rfl, by decide⟩)

/-- C7: the adherence calculator returns rate 0 when no dose record
matches the window, `taken / total * 100` when some do, `taken ≤ total`
always, and hence a rate within `[0, 100]`. -/
theorem getAdherenceRate_spec (records : List DoseRecord) (patientId : Nat)
    (medicationId : Option Nat) (days : Nat) (now : Int) :
    ((getAdherenceRate records patientId medicationId days now).totalDoses = 0 →
        (getAdherenceRate records patientId medicationId days now).adherenceRate = 0)
    ∧ (0 < (getAdherenceRate records patientId medicationId days now).totalDoses →
        (getAdherenceRate records patientId medicationId days now).adherenceRate =
          ((getAdherenceRate records patientId medicationId days now).takenDoses : ℚ)
            / ((getAdherenceRate records patientId medicationId days now).totalDoses : ℚ)
            * 100)
    ∧ (getAdherenceRate records patientId medicationId days now).takenDoses ≤
        (getAdherenceRate records patientId medicationId days now).totalDoses
    ∧ 0 ≤ (getAdherenceRate records patientId medicationId days now).adherenceRate
    ∧ (getAdherenceRate records patientId medicationId days now).adherenceRate ≤ 100 := by
  unfold getAdherenceRate
  dsimp only
  by_cases hemp :
      (records.filter (adherenceMatch patientId medicationId (now - days * 1440))).isEmpty
  · rw [if_pos hemp]
    refine ⟨fun _ => rfl, ?_, le_refl _, le_refl _, by norm_num⟩
    intro h
    exact absurd h (by simp)
  · rw [if_neg hemp]
    set L := records.filter (adherenceMatch patientId medicationId (now - days * 1440))
      with hL
    have hlen : 0 < L.length := by
      cases hL2 : L with
      | nil =>
        rw [hL2] at hemp
        simp at hemp
      | cons x xs => simp
    have htt : (L.filter fun r => r.status == DoseStatus.taken).length ≤ L.length :=
      List.length_filter_le _ _
    dsimp only
    rw [if_pos hlen]
    refine ⟨?_, fun _ => rfl, htt, by positivity, ?_⟩
    · intro h
      exact absurd h (by omega)
    · have h1 : ((L.filter fun r => r.status == DoseStatus.taken).length : ℚ)
          / (L.length : ℚ) ≤ 1 := by
        rw [div_le_one (by exact_mod_cast hlen)]
        exact_mod_cast htt
      have h0 : (0 : ℚ) ≤ ((L.filter fun r => r.status == DoseStatus.taken).length : ℚ)
          / (L.length : ℚ) := by positivity
      nlinarith

/-- C7 witness: a three-record history with two taken doses yields rate
200/3, and an empty history yields rate 0. -/
theorem getAdherenceRate_spec_witness :
    (getAdherenceRate
        [⟨5, 1, 900, DoseStatus.taken⟩, ⟨5, 1, 910, DoseStatus.taken⟩,
          ⟨5, 1, 920, DoseStatus.missed⟩] 1 none 30 1000).adherenceRate =
      ((getAdherenceRate
          [⟨5, 1, 900, DoseStatus.taken⟩, ⟨5, 1, 910, DoseStatus.taken⟩,
            ⟨5, 1, 920, DoseStatus.missed⟩] 1 none 30 1000).takenDoses : ℚ)
        / ((getAdherenceRate
            [⟨5, 1, 900, DoseStatus.taken⟩, ⟨5, 1, 910, DoseStatus.taken⟩,
              ⟨5, 1, 920, DoseStatus.missed⟩] 1 none 30 1000).totalDoses : ℚ) * 100
    ∧ (getAdherenceRate [] 1 none 30 1000).adherenceRate = 0 :=
  ⟨(getAdherenceRate_spec
      [⟨5, 1, 900, DoseStatus.taken⟩, ⟨5, 1, 910, DoseStatus.taken⟩,
        ⟨5, 1, 920, DoseStatus.missed⟩] 1 none 30 1000).2.1 (by decide),
    (getAdherenceRate_spec [] 1 none 30 1000).1 (by decide)⟩

/-- C9 counterexample: with a trigger-creation oracle that throws on
08:00 and succeeds on 20:00, scheduling the two-time medication creates no
trigger at all: the failing time is not skipped, the loop aborts and the
remaining 20:00 trigger — which would have been created successfully — is
never attempted. -/
theorem scheduleReminders_counterexample :
    scheduleMedicationReminders exCreate ["08:00", "20:00"] = ([], true)
    ∧ (exCreate ("20:00")).isSome = true := by decide

/-- C9 amended: if creating the trigger for one scheduled time throws, the
loop aborts: exactly the triggers of the earlier times exist, the throw is
reported (to be caught and logged by the per-user caller), and no trigger
is created for that time or any later one. -/
theorem scheduleReminders_abort (create : String → Option Nat)
    (pre post : List String) (t : String)
    (hpre : ∀ p ∈ pre, (create p).isSome = true) (ht : create t = none) :
    (scheduleMedicationReminders create (pre ++ t :: post)).2 = true
    ∧ (scheduleMedicationReminders create (pre ++ t :: post)).1.length = pre.length := by
  induction pre with
  | nil =>
    simp [scheduleMedicationReminders, ht]
  | cons p ps ih =>
    have hp : (create p).isSome = true := hpre p (by simp)
    obtain ⟨j, hj⟩ := Option.isSome_iff_exists.mp hp
    have ih2 := ih fun q hq => hpre q (by simp [hq])
    simp only [List.cons_append]
    unfold scheduleMedicationReminders
    rw [hj]
    dsimp only
    simp [ih2.1, ih2.2]

/-- C9 witness: one earlier time 07:00 succeeds, 08:00 throws, 20:00 is
abandoned. -/
theorem scheduleReminders_abort_witness :
    (scheduleMedicationReminders exCreate (["07:00"] ++ ("08:00") :: ["20:00"])).2 = true
    ∧ (scheduleMedicationReminders exCreate
        (["07:00"] ++ ("08:00") :: ["20:00"])).1.length =
      (["07:00"] : List String).length :=
  scheduleReminders_abort exCreate ["07:00"] ["20:00"] ("08:00") (by decide) (by decide)
